import Mathlib

/-!
Verification of the deduplicating file-upload backend
(`backend/files/models.py`, `backend/files/views.py`,
`backend/files/serializers.py`).

The record store is modelled as a list of records kept in reverse upload
order (Django's default ordering `-uploaded_at` from `File.Meta`), so the
head of the list is the most recently created record and
`filter(...).first()` corresponds to `List.find?` on the list.  File content
is represented by its MD5 fingerprint: `compute_file_hash` streams the bytes
through a deterministic digest, so byte-identical uploads carry equal
`fileHash` values.  Records carry the `version` column that `views.py` and
`serializers.py` reference; `models.py` itself fails to declare that
column, which is recorded by the theorem
`version_field_missing_from_model` below.  Two embeddings of the upload
view therefore sit side by side: `createFull` follows the source text of
`FileViewSet.create` under the counterfactual that the version lookup of
line 190 can succeed, and only its paths that exit before that lookup are
exercised by theorems; `createReal` follows the view against the `File`
model as actually declared, where evaluating that lookup raises
`FieldError` on every call, so no upload ever persists anything.
-/

namespace FileUpload

/-- One row of the file table as the upload view and serializer use it: the
fields of `File` in `models.py` (`id`, `file` as `storageKey`,
`original_filename`, `file_type`, `size`, `file_hash`, `is_duplicate`,
`original_file`, `reference_count`) plus the `version` column referenced by
`views.py` and `serializers.py`.  `uploaded_at` is encoded by the position
in the store list (most recent first). -/
structure Record where
  id : Nat
  storageKey : Nat
  originalFilename : String
  fileType : String
  size : Option Int
  fileHash : String
  isDuplicate : Bool
  originalFile : Option Nat
  referenceCount : Int
  version : Nat
  deriving DecidableEq, Repr

/-- The inputs `FileViewSet.create` draws from the request: presence of the
uploaded file, its name, content type (after the `getattr` fallback), size
(after the fallback to 0), and the outcome of `compute_file_hash` on the
stream, where `none` models an exception raised while reading the bytes. -/
structure UploadReq where
  hasFile : Bool
  name : String
  contentType : String
  size : Int
  hashResult : Option String
  deriving DecidableEq, Repr

/-- Outcome of one attempt of a store operation, distinguished the way
`execute_with_retry` distinguishes them: success, an `OperationalError`
whose message may contain "database is locked" (the boolean), or an
exception of any other class. -/
inductive DbResult (α : Type) where
  | ok : α → DbResult α
  | opErr : Bool → DbResult α
  | otherErr : DbResult α
  deriving DecidableEq, Repr

/-- How a call of `execute_with_retry` ends: returning a value, re-raising
an `OperationalError` (the boolean telling whether its message said the
database was locked), propagating a non-`OperationalError` exception, or
leaving the loop and raising the final `Exception` (unreachable). -/
inductive RetryOutcome (α : Type) where
  | success : α → RetryOutcome α
  | raisedOp : Bool → RetryOutcome α
  | raisedOther : RetryOutcome α
  | exhaustedLoop : RetryOutcome α
  deriving DecidableEq, Repr

/-- Result of `execute_with_retry`: the terminal outcome, the sequence of
`time.sleep` delays performed (in seconds), and how many times `func` was
invoked. -/
structure RetryResult (α : Type) where
  outcome : RetryOutcome α
  sleeps : List ℚ
  calls : Nat
  deriving DecidableEq, Repr

/-- The `while retry_count < max_retries` loop of `execute_with_retry`
(views.py lines 167-181).  `f n` is the outcome of the `n`-th invocation of
`func`.  The loop condition `retry_count < max_retries - 1` of line 174 is
written `retryCount + 1 < maxRetries`, which agrees with the Python integer
comparison for every value.  The sleep of line 176 is
`0.5 * 2 ** retry_count` computed after the increment of line 175.  The
first argument is recursion fuel equal to `maxRetries` at the top call; the
loop increments `retry_count` on every non-terminal iteration, so the fuel
can never run out and the fuel-zero branch, like the `raise Exception` of
line 181, is unreachable. -/
def retryGo {α : Type} (f : Nat → DbResult α) (maxRetries : Nat) :
    Nat → Nat → Nat → RetryResult α
  | 0, _, _ => ⟨RetryOutcome.exhaustedLoop, [], 0⟩
  | fuel + 1, attempt, retryCount =>
    if retryCount < maxRetries then
      match f attempt with
      | DbResult.ok a => ⟨RetryOutcome.success a, [], 1⟩
      | DbResult.opErr locked =>
        if locked && decide (retryCount + 1 < maxRetries) then
          let r := retryGo f maxRetries fuel (attempt + 1) (retryCount + 1)
          ⟨r.outcome, ((1 : ℚ) / 2) * 2 ^ (retryCount + 1) :: r.sleeps, r.calls + 1⟩
        else ⟨RetryOutcome.raisedOp locked, [], 1⟩
      | DbResult.otherErr => ⟨RetryOutcome.raisedOther, [], 1⟩
    else ⟨RetryOutcome.exhaustedLoop, [], 0⟩

/-- `execute_with_retry(func)` with its default `max_retries = 3`. -/
def executeWithRetry3 {α : Type} (f : Nat → DbResult α) : RetryResult α :=
  retryGo f 3 3 0 0

/-- Kinds of store-level exceptions injected into a run: an
`OperationalError` whose message contains "database is locked", an
`OperationalError` with another message, or an exception of any other
class (integrity violation, I/O fault, ...). -/
inductive DbErr where
  | opLocked
  | opOther
  | other
  deriving DecidableEq, Repr

/-- Turn an attempt-indexed fault schedule into the operation passed to
`execute_with_retry`: on a fault-free attempt the query returns `val`. -/
def opWith {α : Type} (errs : Nat → Option DbErr) (val : α) : Nat → DbResult α :=
  fun n =>
    match errs n with
    | none => DbResult.ok val
    | some DbErr.opLocked => DbResult.opErr true
    | some DbErr.opOther => DbResult.opErr false
    | some DbErr.other => DbResult.otherErr

/-- Fault schedule for one call of `FileViewSet.create`: the errors raised
by the two guarded lookups (indexed by attempt number) and by the two
`save()` calls inside the `transaction.atomic()` block. -/
structure Faults where
  findExisting : Nat → Option DbErr
  findVersion : Nat → Option DbErr
  incRefErr : Option DbErr
  insertErr : Option DbErr

/-- A run in which no store operation raises. -/
def noFaults : Faults := ⟨fun _ => none, fun _ => none, none, none⟩

/-- The query `File.objects.filter(file_hash=file_hash,
is_duplicate=False).first()` of views.py line 185: the first record in
`-uploaded_at` order (the list order) with this fingerprint among
non-duplicate records. -/
def findOriginal (store : List Record) (h : String) : Option Record :=
  store.find? fun r => r.fileHash == h && !r.isDuplicate

/-- The query `File.objects.filter(original_filename=name)
.order_by('-version').values_list('version', flat=True).first() or 0` of
views.py line 190: the largest version among records (of any dedup status)
with this exact filename, or 0 when there are none. -/
def highestVersion (store : List Record) (name : String) : Nat :=
  ((store.filter fun r => r.originalFilename == name).map
    fun r => r.version).foldl max 0

/-- The write `existing_file.reference_count = existing_file.reference_count
+ 1; existing_file.save()` of views.py lines 199-200: the row with the given
id gets its reference count incremented. -/
def bumpRef (store : List Record) (i : Nat) : List Record :=
  store.map fun r =>
    if r.id = i then { r with referenceCount := r.referenceCount + 1 } else r

/-- A write performed inside the `transaction.atomic()` block, paired with
the exception (if any) that its `save()` raises. -/
inductive TxnOp where
  | incRef (i : Nat) (err : Option DbErr)
  | insert (rec : Record) (err : Option DbErr)

/-- Effect of a single write on the store; `none` when its `save()`
raises. -/
def applyTxnOp (store : List Record) : TxnOp → Option (List Record)
  | TxnOp.incRef i err =>
    match err with
    | some _ => none
    | none => some (bumpRef store i)
  | TxnOp.insert rec err =>
    match err with
    | some _ => none
    | none => some (rec :: store)

/-- Run the body of a `transaction.atomic()` block: the writes happen in
order and an exception aborts the remainder.  Django rolls the whole block
back when an exception escapes it, so a `none` result leaves the caller
with the store it had before the block. -/
def runTxn (store : List Record) : List TxnOp → Option (List Record)
  | [] => some store
  | op :: rest =>
    match applyTxnOp store op with
    | none => none
    | some s => runTxn s rest

/-- The duplicate row built in the `if existing_file` branch of views.py
lines 203-212: it shares the original's storage, carries the new upload's
own metadata and the computed version, is marked duplicate, references the
original, and keeps the model default reference count 1. -/
def newDupRecord (newId : Nat) (req : UploadReq) (h : String) (ex : Record)
    (v : Nat) : Record :=
  ⟨newId, ex.storageKey, req.name, req.contentType, some req.size, h, true,
    some ex.id, 1, v⟩

/-- The fresh row built in the unique-file branch of views.py lines 225-234:
own storage, not a duplicate, reference count 1, the computed version. -/
def newOrigRecord (newId : Nat) (req : UploadReq) (h : String) (v : Nat) :
    Record :=
  ⟨newId, newId, req.name, req.contentType, some req.size, h, false, none,
    1, v⟩

/-- What one call of the upload endpoint leaves behind: the HTTP status of
the response, the record store after the call, and whether the response
carried `duplicate_detected = True`. -/
structure CreateResult where
  status : Nat
  store : List Record
  duplicateDetected : Bool
  deriving DecidableEq, Repr

/-- `FileViewSet.create`, views.py lines 133-245 (the reachable body; lines
246-402 sit after a `return` inside the `except` block and are dead).  A
missing file answers 400 (line 140); a failing `compute_file_hash` answers
500 before any store access (lines 149-154); the two lookups run under
`execute_with_retry`, and an error re-raised there, like any exception
escaping the atomic block after rollback, reaches the outer handler of
lines 240-245, which answers the generic 500.  The version lookup is
modelled here as a store operation that can succeed, which against the
`File` model that models.py actually declares it cannot (it raises
`FieldError`; see `createReal`): the theorems drawn from this definition
exercise only the paths that exit before that lookup. -/
def createFull (store : List Record) (newId : Nat) (req : UploadReq)
    (flt : Faults) : CreateResult :=
  if req.hasFile = false then ⟨400, store, false⟩
  else
    match req.hashResult with
    | none => ⟨500, store, false⟩
    | some h =>
      match (executeWithRetry3 (opWith flt.findExisting (findOriginal store h))).outcome with
      | RetryOutcome.success existing =>
        match (executeWithRetry3 (opWith flt.findVersion (highestVersion store req.name))).outcome with
        | RetryOutcome.success hv =>
          match existing with
          | some ex =>
            match runTxn store
                [TxnOp.incRef ex.id flt.incRefErr,
                 TxnOp.insert (newDupRecord newId req h ex (hv + 1)) flt.insertErr] with
            | some s => ⟨201, s, true⟩
            | none => ⟨500, store, false⟩
          | none =>
            match runTxn store
                [TxnOp.insert (newOrigRecord newId req h (hv + 1)) flt.insertErr] with
            | some s => ⟨201, s, false⟩
            | none => ⟨500, store, false⟩
        | _ => ⟨500, store, false⟩
      | _ => ⟨500, store, false⟩

/-- The version query of views.py line 190 evaluated against the `File`
model that models.py actually declares: `order_by('-version')` names a
column the model does not have, so evaluating the queryset raises
`django.core.exceptions.FieldError` - an exception that is not an
`OperationalError` - on every attempt, whatever the store contains. -/
def versionQueryReal : Nat → DbResult Nat :=
  fun _ => DbResult.otherErr

/-- `FileViewSet.create` against the `File` model as actually declared.
The flow is that of `createFull` up to the version lookup of line 190,
whose queryset raises `FieldError` when evaluated (`versionQueryReal`);
`execute_with_retry` does not catch it, so it reaches the outer handler
and the upload answers 500 with the store untouched.  Were control ever to
pass that lookup, both record constructions (lines 203-212 and 225-234)
pass a `version` kwarg that the real `File(...)` constructor rejects with
`TypeError` - inside the atomic block, which rolls back - so that arm too
answers 500 with the store untouched.  No call of this view can reach a
201 or modify the store. -/
def createReal (store : List Record) (req : UploadReq) (flt : Faults) :
    CreateResult :=
  if req.hasFile = false then ⟨400, store, false⟩
  else
    match req.hashResult with
    | none => ⟨500, store, false⟩
    | some h =>
      match (executeWithRetry3 (opWith flt.findExisting (findOriginal store h))).outcome with
      | RetryOutcome.success _ =>
        match (executeWithRetry3 versionQueryReal).outcome with
        | RetryOutcome.success _ => ⟨500, store, false⟩
        | _ => ⟨500, store, false⟩
      | _ => ⟨500, store, false⟩

/-- Sequential uploads against the real model, with no store-level faults
injected (the only failure is the one the missing column causes). -/
def uploadAllReal (store : List Record) : List UploadReq → List Record
  | [] => store
  | u :: rest => uploadAllReal (createReal store u noFaults).store rest

/-- At most one non-duplicate record per fingerprint value. -/
def AtMostOneOriginalPer (store : List Record) : Prop :=
  ∀ hsh : String,
    ((store.filter fun r => r.fileHash == hsh && !r.isDuplicate).length ≤ 1)

/-- The `File.storage_saved` property of models.py lines 44-49.  `none`
models the `TypeError` that line 48 raises when `size` is NULL on a
non-duplicate record with `reference_count > 1`; every other case returns
a value, in particular 0 for every duplicate record. -/
def storageSavedProp (r : Record) : Option Int :=
  if r.isDuplicate = false ∧ 1 < r.referenceCount then
    match r.size with
    | some s => some (s * (r.referenceCount - 1))
    | none => none
  else some 0

/-- The generator sum `sum(getattr(file, 'storage_saved', 0) for file in
...)` of views.py line 417: `none` when some record's property raises,
which aborts the whole sum (the `except` of line 419 then zeroes both
statistics). -/
def sumSaved : List Record → Option Int
  | [] => some 0
  | r :: rest =>
    match storageSavedProp r, sumSaved rest with
    | some v, some s => some (v + s)
    | _, _ => none

/-- The payload of the stats endpoint. -/
structure StatsResponse where
  totalFiles : Nat
  uniqueFiles : Nat
  duplicateFiles : Nat
  totalStorage : Int
  storageSaved : Int
  storageEfficiency : ℚ
  deriving DecidableEq, Repr

/-- `FileViewSet.stats`, views.py lines 404-437.  `total_storage` sums
`f.size or 0` over non-duplicate records after excluding NULL sizes (lines
412-413).  The `try` of lines 416-422 computes `storage_saved` and the
efficiency together; when summing the property raises, both are zeroed.
The efficiency is `storage_saved / total_storage * 100` when
`total_storage > 0`, else 0 (line 418); the two-decimal rendering of line
430 is string formatting of this number. -/
def stats (store : List Record) : StatsResponse :=
  let totalFiles := store.length
  let uniqueFiles := (store.filter fun r => !r.isDuplicate).length
  let duplicateFiles := (store.filter fun r => r.isDuplicate).length
  let totalStorage :=
    ((store.filter fun r => !r.isDuplicate && r.size.isSome).map
      fun r => r.size.getD 0).sum
  match sumSaved (store.filter fun r => !r.isDuplicate) with
  | some saved =>
    ⟨totalFiles, uniqueFiles, duplicateFiles, totalStorage, saved,
      if 0 < totalStorage then (saved : ℚ) / (totalStorage : ℚ) * 100 else 0⟩
  | none => ⟨totalFiles, uniqueFiles, duplicateFiles, totalStorage, 0, 0⟩

/-- The field names declared on the `File` model, models.py lines 19-31. -/
def fileModelFieldNames : List String :=
  ["id", "file", "original_filename", "file_type", "size", "uploaded_at",
   "file_hash", "is_duplicate", "original_file", "reference_count"]

/-- The field names listed in `FileSerializer.Meta.fields`,
serializers.py lines 10-15. -/
def fileSerializerFieldNames : List String :=
  ["id", "file", "original_filename", "file_type", "size", "uploaded_at",
   "file_hash", "is_duplicate", "original_file", "reference_count",
   "storage_saved", "version", "duplicate_detected"]

/-- The names the serializer declares itself (as method fields), so that
every other serializer field must exist on the model. -/
def serializerDeclaredNames : List String :=
  ["storage_saved", "duplicate_detected"]

/-- The model field that `FileViewSet.create` orders and filters by when
computing the next version (views.py line 190) and sets on every new record
(views.py lines 211 and 233). -/
def versionFieldName : String := "version"

/-! Concrete inputs used by witnesses and counterexamples. -/

/-- Upload of content with fingerprint "h1" under the name "a.txt". -/
def reqA : UploadReq := ⟨true, "a.txt", "text/plain", 5, some "h1"⟩

/-- Upload of the same content under the name "b.txt". -/
def reqB : UploadReq := ⟨true, "b.txt", "text/plain", 5, some "h1"⟩

/-- Upload whose stream cannot be read: `compute_file_hash` raises. -/
def reqNoRead : UploadReq := ⟨true, "a.txt", "text/plain", 5, none⟩

/-- A store that answers every dedup-lookup attempt with a locked error. -/
def persistLocked : Faults :=
  ⟨fun _ => some DbErr.opLocked, fun _ => none, none, none⟩

/-- A store whose dedup lookup raises a non-contention exception. -/
def fatalOnLookup : Faults :=
  ⟨fun _ => some DbErr.other, fun _ => none, none, none⟩

/-- The original record left by uploading `reqA` into an empty store. -/
def origA : Record := newOrigRecord 0 reqA "h1" 1

/-! Helper lemmas shared by the claim theorems. -/

/-- A store operation that keeps raising locked errors drives
`execute_with_retry` through all three attempts, sleeping 1.0 and 2.0
seconds, and ends by re-raising the locked `OperationalError`. -/
theorem retryPersistentLocked {α : Type} (f : Nat → DbResult α)
    (hf : ∀ n, n < 3 → f n = DbResult.opErr true) :
    executeWithRetry3 f = ⟨RetryOutcome.raisedOp true, [1, 2], 3⟩ := by
  have h0 := hf 0 (by omega)
  have h1 := hf 1 (by omega)
  have h2 := hf 2 (by omega)
  simp [executeWithRetry3, retryGo, h0, h1, h2]
  norm_num

/-- A fault-free guarded operation succeeds on its first attempt. -/
theorem retryNoFault {α : Type} (v : α) :
    executeWithRetry3 (opWith (fun _ => none) v) =
      ⟨RetryOutcome.success v, [], 1⟩ := rfl

/-- Excluding NULL sizes and then summing `size or 0` gives the same total
as letting every missing size contribute 0. -/
theorem totalStorageMissingAsZero (store : List Record) :
    ((store.filter fun r => !r.isDuplicate && r.size.isSome).map
      (fun r => r.size.getD 0)).sum =
    ((store.filter fun r => !r.isDuplicate).map fun r => r.size.getD 0).sum := by
  induction store with
  | nil => rfl
  | cons r rest ih =>
    by_cases hd : r.isDuplicate = true
    · simp [List.filter_cons, hd, ih]
    · rw [Bool.not_eq_true] at hd
      cases hz : r.size with
      | some s => simp [List.filter_cons, hd, hz, ih]
      | none => simp [List.filter_cons, hd, hz, ih]

/-- Every call of the upload view against the real model leaves the store
untouched and answers 400 or 500: whichever way the guarded dedup lookup
ends, the version lookup of line 190 raises before anything can be
written, so no branch can reach a 201 or modify the store. -/
theorem createRealNeverWrites (store : List Record) (req : UploadReq)
    (flt : Faults) :
    (createReal store req flt).store = store ∧
      ((createReal store req flt).status = 400 ∨
        (createReal store req flt).status = 500) := by
  unfold createReal
  split
  · exact ⟨rfl, Or.inl rfl⟩
  · split
    · exact ⟨rfl, Or.inr rfl⟩
    · split
      · split
        · exact ⟨rfl, Or.inr rfl⟩
        · exact ⟨rfl, Or.inr rfl⟩
      · exact ⟨rfl, Or.inr rfl⟩

/-- A sequence of uploads against the real model never changes the store. -/
theorem uploadAllRealId (ups : List UploadReq) :
    ∀ store : List Record, uploadAllReal store ups = store := by
  induction ups with
  | nil => intro store; rfl
  | cons u rest ih =>
    intro store
    rw [uploadAllReal, (createRealNeverWrites store u noFaults).1]
    exact ih store

/-! Claim theorems. -/

/-- C1 (code bug): against the `File` model that models.py actually
declares, the version queryset of views.py line 190 raises `FieldError`
on every upload, so no upload call ever modifies the store or answers
201 - uploading two byte-identical files (here `reqA` then `reqB`, same
fingerprint) therefore creates no record at all: the store stays empty,
no non-duplicate record exists, and no reference count ever reaches 2
(or N), contrary to the claimed dedup behaviour, which the code intends
but cannot execute. -/
theorem dedup_uploads_never_persist :
    (∀ (store : List Record) (req : UploadReq) (flt : Faults),
      (createReal store req flt).store = store ∧
        ((createReal store req flt).status = 400 ∨
          (createReal store req flt).status = 500)) ∧
    uploadAllReal [] [reqA, reqB] = [] ∧
    createReal [] reqA noFaults = ⟨500, [], false⟩ := by
  refine ⟨createRealNeverWrites, uploadAllRealId [reqA, reqB] [], ?_⟩
  rfl

/-- C2 (confirmed): after any sequence of upload calls against the real
model, starting from an empty record set, at most one non-duplicate
record exists per fingerprint value - vacuously, since the missing
version column makes every upload fail before persisting anything, so
the record set stays empty - and every single upload step preserves the
invariant on any store satisfying it, as the step never modifies the
store at all. -/
theorem at_most_one_original_real :
    (∀ ups : List UploadReq, AtMostOneOriginalPer (uploadAllReal [] ups)) ∧
    (∀ (store : List Record) (req : UploadReq) (flt : Faults),
      AtMostOneOriginalPer store →
        AtMostOneOriginalPer (createReal store req flt).store) := by
  constructor
  · intro ups
    rw [uploadAllRealId ups []]
    intro hsh
    simp
  · intro store req flt hstore
    rw [(createRealNeverWrites store req flt).1]
    exact hstore

/-- Witness for C2's preservation part: one upload into the empty store. -/
theorem at_most_one_original_real_witness :
    AtMostOneOriginalPer (createReal [] reqA noFaults).store :=
  at_most_one_original_real.2 [] reqA noFaults fun hsh => by simp

/-- C3 (code bug): the upload view computes versions by ordering and
filtering on a `version` model field and sets it on every new record, and
the serializer lists `version` among the model-backed fields, but the
`File` model in models.py declares no such field, so the version query and
the record construction raise on every upload instead of assigning
`1 + max(version)`. -/
theorem version_field_missing_from_model :
    versionFieldName ∉ fileModelFieldNames ∧
      versionFieldName ∈ fileSerializerFieldNames ∧
      versionFieldName ∉ serializerDeclaredNames := by
  decide

/-- C4 counterexample: with a persistently locked store, the delays slept
before the second and third attempts are 1.0 and 2.0 time-units, not the
0.5 and 1.0 the claim states. -/
theorem retry_backoff_delays_counterexample :
    (executeWithRetry3 (fun _ => (DbResult.opErr true : DbResult Unit))).sleeps
        = [1, 2] ∧
      (executeWithRetry3 (fun _ => (DbResult.opErr true : DbResult Unit))).sleeps
        ≠ [1 / 2, 1] := by
  constructor
  · have := retryPersistentLocked (fun _ => (DbResult.opErr true : DbResult Unit))
      (fun _ _ => rfl)
    rw [this]
  · have := retryPersistentLocked (fun _ => (DbResult.opErr true : DbResult Unit))
      (fun _ _ => rfl)
    rw [this]
    intro h
    have := List.head_eq_of_cons_eq h
    norm_num at this

/-- C4 (amended): a busy/locked error from a guarded Record Store operation
is retried up to a ceiling of 3 attempts with exponentially increasing
backoff delay: the sleep before the (k+1)-th attempt is 0.5 * 2^k
time-units, i.e. delays 1.0 and 2.0 before the second and third attempts. -/
theorem retry_backoff_schedule {α : Type} (f : Nat → DbResult α)
    (hf : ∀ n, n < 3 → f n = DbResult.opErr true) :
    executeWithRetry3 f = ⟨RetryOutcome.raisedOp true, [1, 2], 3⟩ :=
  retryPersistentLocked f hf

/-- Witness for C4's amended theorem at a concretely locked store. -/
theorem retry_backoff_schedule_witness :
    executeWithRetry3 (fun _ => (DbResult.opErr true : DbResult Unit)) =
      ⟨RetryOutcome.raisedOp true, [1, 2], 3⟩ :=
  retry_backoff_schedule (fun _ => DbResult.opErr true) (fun _ _ => rfl)

/-- C5 counterexample: exhausting the retry ceiling on a persistently busy
store yields exactly the same response as a fatal non-contention error -
the generic 500 produced by the outer handler - so the caller cannot
distinguish a ServiceBusy outcome, and the 503 retry-later status is never
produced. -/
theorem busy_exhaustion_indistinguishable :
    createFull [] 0 reqA persistLocked = createFull [] 0 reqA fatalOnLookup ∧
      (createFull [] 0 reqA persistLocked).status = 500 ∧
      (500 : Nat) ≠ 503 := by
  decide

/-- C5 (amended): when the retry ceiling is exhausted on a persistently
busy store the upload terminates - it returns a response rather than
hanging or silently dropping the upload, and no record is persisted - but
that response is the generic server-error 500 of the outer exception
handler, the same outcome as any fatal error, not a distinguishable
ServiceBusy. -/
theorem busy_exhaustion_generic_500 (store : List Record) (newId : Nat)
    (req : UploadReq) (flt : Faults) (h : String)
    (hf : req.hasFile = true) (hh : req.hashResult = some h)
    (hbusy : ∀ n, flt.findExisting n = some DbErr.opLocked) :
    createFull store newId req flt = ⟨500, store, false⟩ := by
  have hl : ∀ n, n < 3 →
      opWith flt.findExisting (findOriginal store h) n = DbResult.opErr true := by
    intro n _
    simp [opWith, hbusy n]
  have hr := retryPersistentLocked (opWith flt.findExisting (findOriginal store h)) hl
  simp [createFull, hf, hh, hr]

/-- Witness for C5's amended theorem: busy store, upload of `reqA`. -/
theorem busy_exhaustion_generic_500_witness :
    createFull [] 0 reqA persistLocked = ⟨500, [], false⟩ :=
  busy_exhaustion_generic_500 [] 0 reqA persistLocked "h1" rfl rfl
    (fun _ => rfl)

/-- C6 (confirmed): an error that is not the distinguished busy/locked kind
- an `OperationalError` with a different message or an exception of any
other class - is never retried: `execute_with_retry` re-raises it after a
single invocation, with no backoff sleep. -/
theorem nonbusy_errors_not_retried {α : Type} (f : Nat → DbResult α) :
    (f 0 = DbResult.opErr false →
      executeWithRetry3 f = ⟨RetryOutcome.raisedOp false, [], 1⟩) ∧
    (f 0 = DbResult.otherErr →
      executeWithRetry3 f = ⟨RetryOutcome.raisedOther, [], 1⟩) := by
  constructor
  · intro h
    simp [executeWithRetry3, retryGo, h]
  · intro h
    simp [executeWithRetry3, retryGo, h]

/-- Witness for C6 at a store raising a non-locked `OperationalError`. -/
theorem nonbusy_errors_not_retried_witness :
    executeWithRetry3 (fun _ => (DbResult.opErr false : DbResult Unit)) =
      ⟨RetryOutcome.raisedOp false, [], 1⟩ :=
  (nonbusy_errors_not_retried (fun _ => DbResult.opErr false)).1 rfl

/-- C7 counterexample: when the stream cannot be read for fingerprinting
the upload answers 500, a server-error status, not the 400-equivalent
client-error outcome the claim states. -/
theorem read_failure_status_counterexample :
    (createFull [] 0 reqNoRead noFaults).status = 500 ∧ (500 : Nat) ≠ 400 := by
  decide

/-- C7 (amended): when the byte stream cannot be fully read during
fingerprinting the upload fails immediately with a server-error (500)
response - not a 400-equivalent client error - and no record is created
and no existing record is mutated. -/
theorem read_failure_rejects_500_nothing_persisted (store : List Record)
    (newId : Nat) (req : UploadReq) (flt : Faults)
    (hf : req.hasFile = true) (hh : req.hashResult = none) :
    createFull store newId req flt = ⟨500, store, false⟩ := by
  simp [createFull, hf, hh]

/-- Witness for C7's amended theorem at the unreadable upload. -/
theorem read_failure_rejects_500_witness :
    createFull [] 0 reqNoRead noFaults = ⟨500, [], false⟩ :=
  read_failure_rejects_500_nothing_persisted [] 0 reqNoRead noFaults rfl rfl

/-- C9 (confirmed): for a record whose size is present, the
`storage_saved` property returns `size * (reference_count - 1)` when the
record is non-duplicate with `reference_count > 1`, and 0 in every other
case - in particular always 0 for duplicate records. -/
theorem storage_saved_formula (r : Record) (s : Int) (hs : r.size = some s) :
    storageSavedProp r =
      some (if r.isDuplicate = false ∧ 1 < r.referenceCount then
        s * (r.referenceCount - 1) else 0) := by
  by_cases hc : r.isDuplicate = false ∧ 1 < r.referenceCount
  · simp [storageSavedProp, hc, hs]
  · simp [storageSavedProp, hc]

/-- Witness for C9 at an original record of size 5 referenced twice. -/
theorem storage_saved_formula_witness :
    storageSavedProp ⟨0, 0, "a.txt", "text/plain", some 5, "h1", false,
        none, 2, 1⟩ =
      some (if (false : Bool) = false ∧ (1 : Int) < 2 then 5 * (2 - 1) else 0) :=
  storage_saved_formula _ 5 rfl

/-- C10 (code bug): the duplicate-upload path never executes - even on a
store already holding a non-duplicate record with the upload's
fingerprint, the upload answers the generic 500 and leaves the store
unchanged, because the version queryset of views.py line 190 raises
before `transaction.atomic()` is entered (and, were it reached, the
`File(...)` construction of lines 203-212 would reject its version kwarg
with `TypeError` inside the block, rolling the increment back), so
neither the reference-count increment nor the duplicate insert of the
claimed atomic pair is ever performed. -/
theorem dup_transaction_unreachable (store : List Record) (req : UploadReq)
    (h : String) (ex : Record) (hf : req.hasFile = true)
    (hh : req.hashResult = some h)
    (hfind : findOriginal store h = some ex) :
    createReal store req noFaults = ⟨500, store, false⟩ := by
  simp [createReal, hf, hh, noFaults, retryNoFault, hfind]
  rfl

/-- Witness for C10: duplicate upload of the "h1" content onto a store
holding its original. -/
theorem dup_transaction_unreachable_witness :
    createReal [origA] reqB noFaults = ⟨500, [origA], false⟩ :=
  dup_transaction_unreachable [origA] reqB "h1" origA rfl rfl (by decide)

/-- C8 (confirmed): the stats endpoint always answers, its reported
efficiency equals `storage_saved / total_storage * 100` (as an exact
rational; the response renders it to two decimals) whenever
`total_storage > 0` and is 0 when `total_storage = 0`, and a record with a
missing size contributes 0 to `total_storage` instead of failing the
request. -/
theorem stats_efficiency_formula (store : List Record) :
    ((stats store).storageEfficiency =
      if 0 < (stats store).totalStorage then
        ((stats store).storageSaved : ℚ) /
          ((stats store).totalStorage : ℚ) * 100
      else 0) ∧
    (stats store).totalStorage =
      ((store.filter fun r => !r.isDuplicate).map fun r => r.size.getD 0).sum := by
  constructor
  · cases hsum : sumSaved (store.filter fun r => !r.isDuplicate) with
    | some saved => simp [stats, hsum]
    | none =>
      simp only [stats, hsum]
      split
      · simp
      · rfl
  · cases hsum : sumSaved (store.filter fun r => !r.isDuplicate) with
    | some saved => simpa [stats, hsum] using totalStorageMissingAsZero store
    | none => simpa [stats, hsum] using totalStorageMissingAsZero store

end FileUpload
